import Mathlib

/-!
# Survey Distribution & Response Engine — verification development

Shallow embedding of the survey subsystem of the aerojob backend:
the payload normalization and schema validation used by survey
create/update (`backend/routes/surveys.js` `normalizeSurveyPayload`
together with the mongoose `Survey` schema), and the store-level
operations: eligible-survey listing, single-survey detail fetch,
response submission and survey deletion with its response cascade.

Object ids are modelled as `Nat`, strings as Lean `String`
(the repository only manipulates ASCII enum values and trimmed text),
and the document store as in-memory lists of documents.
-/

namespace Aerojob

/-! ## JavaScript string primitives

`jsTrim` models `String.prototype.trim`, `jsToLower` models
`String.prototype.toLowerCase` for the ASCII range the code uses.
They are written over `List Char` so every proof can evaluate them
by kernel reduction. -/

def isSpaceChar (c : Char) : Bool :=
  c = ' ' ∨ c = '\t' ∨ c = '\n' ∨ c = '\r'

def jsTrim (s : String) : String :=
  ⟨((s.data.dropWhile isSpaceChar).reverse.dropWhile isSpaceChar).reverse⟩

def lowerChar (c : Char) : Char :=
  if 'A' ≤ c ∧ c ≤ 'Z' then Char.ofNat (c.toNat + 32) else c

def jsToLower (s : String) : String :=
  ⟨s.data.map lowerChar⟩

/-- `norm(v, dflt)` from `routes/surveys.js`: `(v ?? dflt).toString().trim()` —
the default applies only when the value is absent (null/undefined), *before*
trimming. -/
def jsNorm (v : Option String) (dflt : String) : String :=
  jsTrim (v.getD dflt)

/-- `replace(/[-_]/g, ' ')`. -/
def dashToSpace (s : String) : String :=
  ⟨s.data.map (fun c => if c = '-' ∨ c = '_' then ' ' else c)⟩

/-- Helper for `replace(/\s+/g, ' ')`: the flag records whether the previous
character was whitespace, so each whitespace run collapses to one space. -/
def collapseWsAux : Bool → List Char → List Char
  | _, [] => []
  | prevWs, c :: rest =>
    if isSpaceChar c then
      if prevWs then collapseWsAux true rest
      else ' ' :: collapseWsAux true rest
    else c :: collapseWsAux false rest

/-- `replace(/\s+/g, ' ')`. -/
def collapseWs (s : String) : String :=
  ⟨collapseWsAux false s.data⟩

/-! ## Question type normalization (`normalizeType`) -/

/-- `normalizeType` from `routes/surveys.js`: trim, lowercase, dashes and
underscores to spaces, collapse whitespace runs, then the fixed synonym
table; anything unrecognized defaults to `short_text`. -/
def normalizeType (raw : Option String) : String :=
  let s := collapseWs (dashToSpace (jsToLower (jsNorm raw "")))
  if s ∈ ["short text", "shorttext", "text", "input", "single line"] then "short_text"
  else if s ∈ ["long text", "longtext", "textarea", "paragraph"] then "long_text"
  else if s ∈ ["multiple choice", "radio", "single select", "single"] then "multiple_choice"
  else if s ∈ ["checkbox", "multi select", "multiple", "multi"] then "checkbox"
  else if s ∈ ["rating", "stars", "scale"] then "rating"
  else "short_text"

/-! ## Survey create/update payload pipeline -/

/-- One entry of `body.questions` as the route receives it: every field may
be absent. `required` models the JS truthiness of `!!q?.required`. -/
structure QuestionInput where
  qid : Option Nat
  text : Option String
  qtype : Option String
  required : Bool
  options : Option (List String)
deriving DecidableEq, Repr

/-- The request body for survey create/update. -/
structure SurveyInput where
  title : Option String
  description : Option String
  audience : Option String
  status : Option String
  questions : Option (List QuestionInput)
deriving DecidableEq, Repr

/-- A question as it sits in a (to-be-stored) survey document. -/
structure NormQuestion where
  qid : Option Nat
  text : String
  qtype : String
  required : Bool
  options : List String
deriving DecidableEq, Repr

/-- A survey document as produced by payload normalization and persisted by
the `Survey` model. -/
structure SurveyDoc where
  title : String
  description : String
  audience : String
  status : String
  questions : List NormQuestion
deriving DecidableEq, Repr

/-- The per-question branch of `normalizeSurveyPayload` (`routes/surveys.js`):
`text: norm(q?.text, "Q" + (i+1))`, normalized type, `required: !!q?.required`,
options trimmed and filtered for choice types, force-emptied otherwise. -/
def normalizeQuestion (i : Nat) (q : QuestionInput) : NormQuestion :=
  let t := normalizeType q.qtype
  { qid := q.qid
    text := jsNorm q.text ("Q" ++ toString (i + 1))
    qtype := t
    required := q.required
    options :=
      if t = "multiple_choice" ∨ t = "checkbox" then
        ((q.options.getD []).map jsTrim).filter (fun o => o ≠ "")
      else [] }

/-- `normalizeSurveyPayload` from `routes/surveys.js`. -/
def normalizeSurveyPayload (body : SurveyInput) : SurveyDoc :=
  { title := jsNorm body.title ""
    description := jsNorm body.description ""
    audience := jsToLower (jsNorm body.audience "all")
    status := jsToLower (jsNorm body.status "draft")
    questions := ((body.questions.getD []).enum).map (fun p => normalizeQuestion p.1 p.2) }

/-- The `normalize` pre-validate hook of `models/Survey.js`: lowercase/trim
`audience` and `status` (skipped on the empty string, matching JS
truthiness), trim question text, lowercase/trim the type, trim and drop
empty options. -/
def modelNormalize (d : SurveyDoc) : SurveyDoc :=
  { d with
    audience := if d.audience ≠ "" then jsTrim (jsToLower d.audience) else d.audience
    status := if d.status ≠ "" then jsTrim (jsToLower d.status) else d.status
    questions := d.questions.map (fun q =>
      { q with
        text := if q.text ≠ "" then jsTrim q.text else q.text
        qtype := if q.qtype ≠ "" then jsTrim (jsToLower q.qtype) else q.qtype
        options := (q.options.map jsTrim).filter (fun o => o ≠ "") }) }

def QUESTION_TYPES : List String :=
  ["short_text", "long_text", "multiple_choice", "checkbox", "rating"]

/-- The `audience` enum of the mongoose `Survey` schema. Note that it
*contains* the synonyms: they are accepted as stored values. -/
def audienceEnum : List String :=
  ["all", "students", "student", "alumni", "alumnus", "alumnae", "alumna"]

def statusEnum : List String := ["active", "draft", "archived"]

/-- Mongoose validation of a survey document: `title` required (non-empty
after trim), `audience` and `status` in their enums, each question's `text`
required, its `type` in the enum, and the options validator (an empty array
passes; otherwise every option must be non-blank). -/
def validateSurveyDoc (d : SurveyDoc) : Bool :=
  decide (d.title ≠ "" ∧ d.audience ∈ audienceEnum ∧ d.status ∈ statusEnum ∧
    ∀ q ∈ d.questions, q.text ≠ "" ∧ q.qtype ∈ QUESTION_TYPES ∧
      (q.options = [] ∨ ∀ o ∈ q.options, jsTrim o ≠ ""))

/-- `POST /api/surveys` (and the payload side of `PUT /api/surveys/:id`):
`Survey.create(normalizeSurveyPayload(req.body))` — the pre-validate hook
runs, then validation; `none` models the 400 `ValidationError` rejection. -/
def createSurvey (body : SurveyInput) : Option SurveyDoc :=
  let d := modelNormalize (normalizeSurveyPayload body)
  if validateSurveyDoc d then some d else none

/-! ## The document store -/

/-- A `Mixed` answer value: absent/null, text, number, or list of strings
(the shapes the routes actually handle). -/
inductive Value where
  | vnull
  | vstr (s : String)
  | vnum (n : Int)
  | vlist (xs : List String)
deriving DecidableEq, Repr

/-- The emptiness test of the required-question check:
`found.value == null || (Array.isArray(v) ? v.length === 0 : String(v).trim() === '')`. -/
def Value.isEmptyAnswer : Value → Bool
  | .vnull => true
  | .vlist xs => xs.isEmpty
  | .vstr s => jsTrim s = ""
  | .vnum n => jsTrim (toString n) = ""

/-- A `(questionId, value)` answer pair as stored on a `SurveyResponse`. -/
structure AnswerEntry where
  questionId : Nat
  value : Value
deriving DecidableEq, Repr

/-- One entry of the raw `req.body.answers` array: either the explicit
`{questionId|qid, value}` object shape (`keyed`, with the id already the
JS `a.questionId || a.qid`), or a bare value matched positionally to the
question at the same index (`plain`). -/
inductive RawAnswer where
  | keyed (questionId : Nat) (value : Value)
  | plain (value : Value)
deriving DecidableEq, Repr

/-- A question subdocument of a stored survey (`_id` assigned). -/
structure StoredQuestion where
  id : Nat
  text : String
  qtype : String
  required : Bool
  options : List String
deriving DecidableEq, Repr

/-- A stored `Survey` document. -/
structure StoredSurvey where
  id : Nat
  title : String
  audience : String
  status : String
  questions : List StoredQuestion
  createdAt : Nat
deriving DecidableEq, Repr

/-- A stored `SurveyResponse` document. The schema declares `survey`,
`answers`, `user` and the legacy `userId`; `surveyId` is the historical
survey-side reference field that pre-schema documents may still carry and
that the monolithic server's delete/eligible queries union over. -/
structure ResponseDoc where
  survey : Nat
  surveyId : Option Nat
  user : Option Nat
  userId : Option Nat
  answers : List AnswerEntry
deriving DecidableEq, Repr

/-- The persistent collections the survey routes touch. -/
structure Store where
  surveys : List StoredSurvey
  responses : List ResponseDoc
deriving DecidableEq, Repr

/-- `status: { $regex: /^active$/i }`. -/
def isActive (s : StoredSurvey) : Bool :=
  decide (jsToLower s.status = "active")

/-- The audience values pushed for a role in the eligibility/detail
queries: `student → students, student`; `alumni → alumni, alumnus,
alumnae, alumna`; anything else adds nothing. -/
def roleTargets (role : String) : List String :=
  if role = "student" then ["students", "student"]
  else if role = "alumni" then ["alumni", "alumnus", "alumnae", "alumna"]
  else []

/-- `$or: [{ audience: 'all' }, ...roleTargets]`. -/
def audienceMatches (role aud : String) : Bool :=
  decide (aud = "all" ∨ aud ∈ roleTargets role)

/-- `$or: [{ user: uid }, { userId: uid }]` on a response. -/
def matchesParticipant (p : Nat) (r : ResponseDoc) : Bool :=
  decide (r.user = some p ∨ r.userId = some p)

/-- `.sort({ createdAt: -1 })`: newest first. -/
def newerFirst (a b : StoredSurvey) : Prop :=
  b.createdAt ≤ a.createdAt

instance : DecidableRel newerFirst := fun a b => Nat.decLe b.createdAt a.createdAt

instance : IsTotal StoredSurvey newerFirst :=
  ⟨fun a b => Nat.le_total b.createdAt a.createdAt⟩

instance : IsTrans StoredSurvey newerFirst :=
  ⟨fun _ _ _ hab hbc => Nat.le_trans hbc hab⟩

def sortByCreatedDesc (l : List StoredSurvey) : List StoredSurvey :=
  l.insertionSort newerFirst

/-- The answered-survey ids of `GET /surveys/active/eligible`: the union of
`distinct('survey')` and `distinct('surveyId')` over the participant's
responses (matched through `user` or the legacy `userId`). -/
def answeredIds (st : Store) (p : Nat) : List Nat :=
  ((st.responses.filter (matchesParticipant p)).map (fun r => r.survey))
    ++ ((st.responses.filter (matchesParticipant p)).filterMap (fun r => r.surveyId))

/-- `GET /surveys/active/eligible`: active surveys whose audience is `all`
or in the caller's role bucket, newest first; for an authenticated caller,
minus the surveys they already answered; for an anonymous caller the list
is returned unfiltered. -/
def eligibleSurveys (st : Store) (role : String) (pid : Option Nat) : List StoredSurvey :=
  let r := jsToLower role
  let activeList :=
    sortByCreatedDesc (st.surveys.filter (fun s => isActive s && audienceMatches r s.audience))
  match pid with
  | none => activeList
  | some p => activeList.filter (fun s => !(decide (s.id ∈ answeredIds st p)))

/-- Outcome of the non-admin `GET /api/surveys/:id` detail fetch. -/
inductive DetailResult where
  | notFound
  | alreadyAnswered
  | ok (s : StoredSurvey)
deriving DecidableEq, Repr

/-- Non-admin `GET /api/surveys/:id`: `findOne` on id + active status +
audience match gives 404 when empty; then a response by this caller
(current `survey` field, `user` or legacy `userId`) gives 403
`Already answered`; otherwise the survey is returned. -/
def getSurveyDetail (st : Store) (uid : Nat) (role : String) (sid : Nat) : DetailResult :=
  let r := jsToLower role
  match st.surveys.find? (fun s => decide (s.id = sid) && isActive s && audienceMatches r s.audience) with
  | none => .notFound
  | some sv =>
    if st.responses.any (fun resp => decide (resp.survey = sv.id) && matchesParticipant uid resp) then
      .alreadyAnswered
    else .ok sv

/-- `answers.find(a => String(a.questionId) === String(q._id))`. -/
def findAnswer (ans : List AnswerEntry) (qid : Nat) : Option AnswerEntry :=
  ans.find? (fun a => decide (a.questionId = qid))

/-- Whether the answer looked up for question id `qid` is missing or empty. -/
def emptyForB (ans : List AnswerEntry) (qid : Nat) : Bool :=
  match findAnswer ans qid with
  | none => true
  | some a => a.value.isEmptyAnswer

/-- The `for (const q of survey.questions)` required-enforcement loop:
the first required question whose looked-up answer is missing or empty
(the loop returns 400 naming its text), `none` when all pass. -/
def firstMissingRequired : List StoredQuestion → List AnswerEntry → Option StoredQuestion
  | [], _ => none
  | q :: rest, ans =>
    if q.required && emptyForB ans q.id then some q
    else firstMissingRequired rest ans

/-- Normalization of one raw answer at array index `idx`: the explicit
shape keeps its id and value; the positional shape resolves against the
`idx`-th question and is dropped when there is none. -/
def resolveRaw (qs : List StoredQuestion) (idx : Nat) : RawAnswer → Option AnswerEntry
  | .keyed qid v => some ⟨qid, v⟩
  | .plain v =>
    match qs.get? idx with
    | some q => some ⟨q.id, v⟩
    | none => none

/-- The answers `.map(...).filter(Boolean)` normalization of the submit
routes. -/
def normalizeAnswers (qs : List StoredQuestion) (raw : List RawAnswer) : List AnswerEntry :=
  raw.enum.filterMap (fun p => resolveRaw qs p.1 p.2)

/-- Outcome of `POST /api/surveys/:id/responses`. The error payload of the
validation case is `Question "<text>" is required.`; the constructor
carries the text. -/
inductive SubmitResult where
  | notFound
  | validationError (questionText : String)
  | created (doc : ResponseDoc)
deriving DecidableEq, Repr

def SubmitResult.isCreated : SubmitResult → Bool
  | .created _ => true
  | _ => false

/-- The document passed to `SurveyResponse.create`: the survey's id, the
normalized answers, and the caller's id in both `user` and the legacy
`userId`. -/
def mkSubmitDoc (sv : StoredSurvey) (uid : Nat) (raw : List RawAnswer) : ResponseDoc :=
  { survey := sv.id, surveyId := none, user := some uid, userId := some uid,
    answers := normalizeAnswers sv.questions raw }

/-- `POST /api/surveys/:id/responses` (`routes/surveys.js`): look the survey
up by id (404 when absent), normalize the answers, enforce required
questions (400 on the first failure), then `SurveyResponse.create` with
both `user` and `userId` set to the caller. Note: the handler checks
neither the survey's status nor whether the caller already responded. -/
def submitResponse (st : Store) (sid uid : Nat) (raw : List RawAnswer) :
    SubmitResult × Store :=
  match st.surveys.find? (fun s => decide (s.id = sid)) with
  | none => (.notFound, st)
  | some sv =>
    match firstMissingRequired sv.questions (normalizeAnswers sv.questions raw) with
    | some q => (.validationError q.text, st)
    | none =>
      (.created (mkSubmitDoc sv uid raw),
        { st with responses := st.responses ++ [mkSubmitDoc sv uid raw] })

/-- Outcome of `DELETE /surveys/:id`. -/
inductive DeleteResult where
  | notFound
  | deleted
deriving DecidableEq, Repr

/-- Whether a response references the survey `sid` through the current or
the legacy field: `$or: [{ survey: id }, { surveyId: id }]`. -/
def refsSurvey (sid : Nat) (r : ResponseDoc) : Bool :=
  decide (r.survey = sid ∨ r.surveyId = some sid)

/-- `DELETE /surveys/:id` (monolithic server): `findByIdAndDelete`, 404
when absent, then `SurveyResponse.deleteMany({$or: [{survey}, {surveyId}]})`. -/
def deleteSurvey (st : Store) (sid : Nat) : DeleteResult × Store :=
  match st.surveys.find? (fun s => decide (s.id = sid)) with
  | none => (.notFound, st)
  | some sv =>
    (.deleted,
      { surveys := st.surveys.filter (fun s => !(decide (s.id = sv.id)))
        responses := st.responses.filter (fun r => !(refsSurvey sv.id r)) })

/-- Responses in the store for the `(surveyId, participantId)` pair,
counted through either reference scheme on both links. -/
def countPair (st : Store) (sid uid : Nat) : Nat :=
  (st.responses.filter (fun r => refsSurvey sid r && matchesParticipant uid r)).length

/-! ## Concrete instances

Small concrete stores and payloads used to evaluate the operations at
specific inputs. -/

/-- A rating question flagged required. -/
def qRating : StoredQuestion :=
  { id := 10, text := "Did you enjoy the program?", qtype := "rating", required := true,
    options := [] }

def svActive : StoredSurvey :=
  { id := 1, title := "Exit Survey", audience := "all", status := "active",
    questions := [qRating], createdAt := 5 }

/-- A valid answer payload for `svActive`: rating 5 for question 10. -/
def rawRating : List RawAnswer := [.keyed 10 (.vnum 5)]

def respPair : ResponseDoc :=
  { survey := 1, surveyId := none, user := some 7, userId := some 7,
    answers := [⟨10, .vnum 5⟩] }

/-- Store in which participant 7 already answered survey 1. -/
def stC1 : Store := { surveys := [svActive], responses := [respPair] }

def stC1after : Store := { surveys := [svActive], responses := [respPair, respPair] }

def svDraft : StoredSurvey :=
  { id := 2, title := "Draft Survey", audience := "all", status := "draft",
    questions := [qRating], createdAt := 3 }

def stC2 : Store := { surveys := [svDraft], responses := [] }

def dC2 : ResponseDoc :=
  { survey := 2, surveyId := none, user := some 7, userId := some 7,
    answers := [⟨10, .vnum 5⟩] }

def stC2after : Store := { surveys := [svDraft], responses := [dC2] }

def svC3 : StoredSurvey :=
  { id := 3, title := "Student Poll", audience := "students", status := "active",
    questions := [], createdAt := 4 }

def respC3 : ResponseDoc :=
  { survey := 3, surveyId := none, user := some 7, userId := none, answers := [] }

/-- Store in which participant 7 already answered the active, audience-matching
survey 3. -/
def stC3 : Store := { surveys := [svC3], responses := [respC3] }

/-- The same survey with no responses yet. -/
def stC3b : Store := { surveys := [svC3], responses := [] }

def qsC5 : List StoredQuestion :=
  [{ id := 21, text := "Name?", qtype := "short_text", required := true, options := [] },
   { id := 22, text := "Comments?", qtype := "long_text", required := false, options := [] }]

def ansC5 : List AnswerEntry := [⟨21, .vnum 0⟩]

def stC6 : Store := { surveys := [svActive], responses := [] }

def stC6after : Store :=
  { surveys := [svActive], responses := [mkSubmitDoc svActive 7 rawRating] }

def svC7 : StoredSurvey :=
  { id := 7, title := "Old Survey", audience := "all", status := "archived",
    questions := [], createdAt := 1 }

def svC7b : StoredSurvey :=
  { id := 8, title := "Other Survey", audience := "all", status := "active",
    questions := [], createdAt := 2 }

/-- A response referencing survey 7 through the current field. -/
def respCur7 : ResponseDoc :=
  { survey := 7, surveyId := none, user := some 1, userId := none, answers := [] }

/-- A pre-migration response referencing survey 7 only through the legacy
`surveyId` field. -/
def respLegacy7 : ResponseDoc :=
  { survey := 0, surveyId := some 7, user := some 2, userId := some 2, answers := [] }

/-- A response of a different survey. -/
def respOther8 : ResponseDoc :=
  { survey := 8, surveyId := none, user := some 1, userId := none, answers := [] }

def stC7 : Store :=
  { surveys := [svC7, svC7b], responses := [respCur7, respLegacy7, respOther8] }

def stC7after : Store := { surveys := [svC7b], responses := [respOther8] }

/-- Create payload whose audience is the synonym `alumnus`. -/
def bC8 : SurveyInput :=
  { title := some "Alumni Outreach", description := none, audience := some "Alumnus",
    status := some "active", questions := none }

def dC8 : SurveyDoc :=
  { title := "Alumni Outreach", description := "", audience := "alumnus",
    status := "active", questions := [] }

def qC9 : StoredQuestion :=
  { id := 20, text := "Feedback", qtype := "short_text", required := true, options := [] }

def svC9 : StoredSurvey :=
  { id := 9, title := "Dup Survey", audience := "all", status := "active",
    questions := [qC9], createdAt := 1 }

def stC9 : Store := { surveys := [svC9], responses := [] }

/-- Two raw entries resolving to the same question 20: first a non-empty
value, then an empty one. -/
def rawC9 : List RawAnswer := [.keyed 20 (.vstr "x"), .keyed 20 (.vstr "")]

def stC9after : Store :=
  { surveys := [svC9], responses := [mkSubmitDoc svC9 7 rawC9] }

/-- A question input with whitespace-only text. -/
def qiBlank : QuestionInput :=
  { qid := none, text := some "   ", qtype := some "rating", required := true, options := none }

/-- A question input with no text at all. -/
def qiMissing : QuestionInput :=
  { qid := none, text := none, qtype := some "rating", required := true, options := none }

/-- Create payload containing a question whose text is blank after trimming. -/
def bC10 : SurveyInput :=
  { title := some "T", description := none, audience := none, status := none,
    questions := some [qiBlank] }

/-- Create payload containing a question with missing text. -/
def bC10b : SurveyInput :=
  { title := some "T", description := none, audience := none, status := none,
    questions := some [qiMissing] }

def dC10b : SurveyDoc :=
  { title := "T", description := "", audience := "all", status := "draft",
    questions := [{ qid := none, text := "Q1", qtype := "rating", required := true,
                    options := [] }] }

/-! ## Helper lemmas -/

theorem mem_sortByCreatedDesc {l : List StoredSurvey} {s : StoredSurvey} :
    s ∈ sortByCreatedDesc l ↔ s ∈ l :=
  List.mem_insertionSort newerFirst

theorem sorted_sortByCreatedDesc (l : List StoredSurvey) :
    (sortByCreatedDesc l).Sorted newerFirst :=
  List.sorted_insertionSort newerFirst l

theorem mem_answeredIds {st : Store} {p sid : Nat} :
    sid ∈ answeredIds st p ↔
      ∃ r ∈ st.responses, (r.user = some p ∨ r.userId = some p) ∧
        (r.survey = sid ∨ r.surveyId = some sid) := by
  simp only [answeredIds, List.mem_append, List.mem_map, List.mem_filterMap,
    List.mem_filter, matchesParticipant, decide_eq_true_eq]
  constructor
  · rintro (⟨r, ⟨hr, hm⟩, hs⟩ | ⟨r, ⟨hr, hm⟩, hs⟩)
    · exact ⟨r, hr, hm, Or.inl hs⟩
    · exact ⟨r, hr, hm, Or.inr hs⟩
  · rintro ⟨r, hr, hm, hs | hs⟩
    · exact Or.inl ⟨r, ⟨hr, hm⟩, hs⟩
    · exact Or.inr ⟨r, ⟨hr, hm⟩, hs⟩

theorem mem_eligibleSurveys_some {st : Store} {role : String} {p : Nat} {s : StoredSurvey} :
    s ∈ eligibleSurveys st role (some p) ↔
      s ∈ st.surveys ∧ isActive s = true ∧
        audienceMatches (jsToLower role) s.audience = true ∧
        s.id ∉ answeredIds st p := by
  simp only [eligibleSurveys, List.mem_filter, mem_sortByCreatedDesc,
    Bool.not_eq_true', decide_eq_false_iff_not, Bool.and_eq_true]
  tauto

theorem mem_eligibleSurveys_none {st : Store} {role : String} {s : StoredSurvey} :
    s ∈ eligibleSurveys st role none ↔
      s ∈ st.surveys ∧ isActive s = true ∧
        audienceMatches (jsToLower role) s.audience = true := by
  simp only [eligibleSurveys, mem_sortByCreatedDesc, List.mem_filter, Bool.and_eq_true]

theorem sorted_eligibleSurveys (st : Store) (role : String) (pid : Option Nat) :
    (eligibleSurveys st role pid).Sorted newerFirst := by
  cases pid with
  | none => exact sorted_sortByCreatedDesc _
  | some p => exact (sorted_sortByCreatedDesc _).filter _

/-- Inversion of a successful submit: the survey was found by id, the
required check passed, and the store gained exactly the created document. -/
theorem submitResponse_created_inv {st : Store} {sid uid : Nat} {raw : List RawAnswer}
    {d : ResponseDoc} {st' : Store}
    (h : submitResponse st sid uid raw = (.created d, st')) :
    ∃ sv, st.surveys.find? (fun s => decide (s.id = sid)) = some sv ∧ sv.id = sid ∧
      firstMissingRequired sv.questions (normalizeAnswers sv.questions raw) = none ∧
      d = mkSubmitDoc sv uid raw ∧
      st' = { st with responses := st.responses ++ [d] } := by
  cases hf : st.surveys.find? (fun s => decide (s.id = sid)) with
  | none => simp only [submitResponse, hf] at h; simp at h
  | some sv =>
    cases hr : firstMissingRequired sv.questions (normalizeAnswers sv.questions raw) with
    | some q => simp only [submitResponse, hf, hr] at h; simp at h
    | none =>
      simp only [submitResponse, hf, hr, Prod.mk.injEq, SubmitResult.created.injEq] at h
      obtain ⟨hd, hst⟩ := h
      refine ⟨sv, rfl, ?_, hr, hd.symm, ?_⟩
      · simpa using List.find?_some hf
      · rw [← hst, hd]

/-- Inversion of a successful delete: the deleted survey was found by id and
the response collection was filtered by the union query. -/
theorem deleteSurvey_deleted_inv {st : Store} {sid : Nat} {st' : Store}
    (h : deleteSurvey st sid = (.deleted, st')) :
    st'.responses = st.responses.filter (fun r => !(refsSurvey sid r)) ∧
    st'.surveys = st.surveys.filter (fun s => !(decide (s.id = sid))) := by
  cases hf : st.surveys.find? (fun s => decide (s.id = sid)) with
  | none => simp only [deleteSurvey, hf] at h; simp at h
  | some sv =>
    have hid : sv.id = sid := by simpa using List.find?_some hf
    simp only [deleteSurvey, hf, Prod.mk.injEq, true_and] at h
    rw [← h, hid]
    exact ⟨rfl, rfl⟩

/-! ## Claim theorems -/

/-- C1: the spec requires at most one `Response` per `(surveyId,
participantId)` pair, a subsequent submit reporting `Conflict` without a
second insert. The submit handler performs no duplicate check and the
`SurveyResponse` schema has no compound unique index, so from a store that
already holds the pair's response an identical submit succeeds (201) and a
second `Response` for the pair is inserted. -/
theorem submit_duplicates_pair :
    countPair stC1 1 7 = 1 ∧
    submitResponse stC1 1 7 rawRating = (.created respPair, stC1after) ∧
    countPair stC1after 1 7 = 2 := by decide

/-- C2 counterexample: the claim says a submit to a non-active survey fails
with a 403/404-class error and creates no `Response`. Survey 2 is stored
with status `draft`, yet the submit succeeds and its response is stored. -/
theorem submit_draft_accepted :
    svDraft.status = "draft" ∧
    submitResponse stC2 2 7 rawRating = (.created dC2, stC2after) ∧
    countPair stC2after 2 7 = 1 := by decide

/-- C2 amended: the submit handler checks only that the survey exists (404
when absent); the survey's status is never consulted, so whenever the survey
is found — even with a non-active status — and the required check passes,
the response is created and stored. -/
theorem submit_ignores_status (st : Store) (sid uid : Nat) (raw : List RawAnswer)
    (sv : StoredSurvey)
    (hfind : st.surveys.find? (fun s => decide (s.id = sid)) = some sv)
    (_hstatus : jsToLower sv.status ≠ "active")
    (hreq : firstMissingRequired sv.questions (normalizeAnswers sv.questions raw) = none) :
    submitResponse st sid uid raw =
      (.created (mkSubmitDoc sv uid raw),
        { st with responses := st.responses ++ [mkSubmitDoc sv uid raw] }) := by
  simp only [submitResponse, hfind, hreq]

/-- C2 witness: the amended theorem applied to the concrete draft store. -/
theorem submit_ignores_status_witness :
    submitResponse stC2 2 7 rawRating =
      (.created (mkSubmitDoc svDraft 7 rawRating),
        { stC2 with responses := stC2.responses ++ [mkSubmitDoc svDraft 7 rawRating] }) :=
  submit_ignores_status stC2 2 7 rawRating svDraft (by decide) (by decide) (by decide)

/-- C4: `eligibleSurveys` returns exactly the surveys with active status
whose audience is `all` or lies in the (lowercased) role's bucket
(`student → students/student`, `alumni → alumni/alumnus/alumnae/alumna`),
minus every survey for which a response by the participant exists under
either the current `survey` or the legacy `surveyId` reference field (a set
union), ordered by creation time descending; with no participant id the set
is returned unfiltered. -/
theorem eligibleSurveys_spec (st : Store) (role : String) (p : Nat) :
    (∀ s, s ∈ eligibleSurveys st role (some p) ↔
        s ∈ st.surveys ∧ jsToLower s.status = "active" ∧
          (s.audience = "all" ∨ s.audience ∈ roleTargets (jsToLower role)) ∧
          ¬ ∃ r ∈ st.responses, (r.user = some p ∨ r.userId = some p) ∧
              (r.survey = s.id ∨ r.surveyId = some s.id)) ∧
    (∀ s, s ∈ eligibleSurveys st role none ↔
        s ∈ st.surveys ∧ jsToLower s.status = "active" ∧
          (s.audience = "all" ∨ s.audience ∈ roleTargets (jsToLower role))) ∧
    (∀ pid, (eligibleSurveys st role pid).Sorted newerFirst) ∧
    roleTargets "student" = ["students", "student"] ∧
    roleTargets "alumni" = ["alumni", "alumnus", "alumnae", "alumna"] := by
  refine ⟨fun s => ?_, fun s => ?_, sorted_eligibleSurveys st role, rfl, rfl⟩
  · rw [mem_eligibleSurveys_some]
    simp [isActive, audienceMatches, mem_answeredIds]
  · rw [mem_eligibleSurveys_none]
    simp [isActive, audienceMatches]

/-- C6: after a successful submit by participant `uid` to the survey with
id `sid`, that survey no longer appears among the participant's eligible
surveys. -/
theorem submit_removes_from_eligible (st : Store) (sid uid : Nat) (raw : List RawAnswer)
    (role : String) (d : ResponseDoc) (st' : Store)
    (h : submitResponse st sid uid raw = (.created d, st')) :
    sid ∉ (eligibleSurveys st' role (some uid)).map (fun s => s.id) := by
  obtain ⟨sv, hf, hid, hr, hd, hst⟩ := submitResponse_created_inv h
  intro hmem
  obtain ⟨s, hs, hsid⟩ := List.mem_map.mp hmem
  rw [mem_eligibleSurveys_some] at hs
  obtain ⟨-, -, -, hnot⟩ := hs
  apply hnot
  rw [mem_answeredIds]
  refine ⟨d, ?_, ?_, ?_⟩
  · rw [hst]; simp
  · rw [hd]; simp [mkSubmitDoc]
  · rw [hd]; simp [mkSubmitDoc, hid, hsid]

/-- C6 witness: submitting the valid rating answer to survey 1 removes it
from participant 7's eligible list. -/
theorem submit_removes_from_eligible_witness :
    1 ∉ (eligibleSurveys stC6after "student" (some 7)).map (fun s => s.id) :=
  submit_removes_from_eligible stC6 1 7 rawRating "student"
    (mkSubmitDoc svActive 7 rawRating) stC6after (by decide)

/-- C7: after a successful survey delete, no response referencing that
survey remains in the store — through the current `survey` field or the
legacy `surveyId` field — while the other responses are kept unchanged, in
order. -/
theorem delete_cascades_responses (st : Store) (sid : Nat) (st' : Store)
    (h : deleteSurvey st sid = (.deleted, st')) :
    st'.responses.all (fun r => !(refsSurvey sid r)) = true ∧
    st'.responses = st.responses.filter (fun r => !(refsSurvey sid r)) := by
  obtain ⟨hr, -⟩ := deleteSurvey_deleted_inv h
  refine ⟨?_, hr⟩
  rw [hr]
  simp [List.all_eq_true, List.mem_filter]

/-- C7 witness: deleting survey 7 removes both the current-field response
and the legacy-only response, keeping survey 8's response untouched. -/
theorem delete_cascades_responses_witness :
    stC7after.responses.all (fun r => !(refsSurvey 7 r)) = true ∧
    stC7after.responses = stC7.responses.filter (fun r => !(refsSurvey 7 r)) :=
  delete_cascades_responses stC7 7 stC7after (by decide)

/-- C3 counterexample: participant 7 already answered the active,
audience-matching survey 3, and the detail fetch reports the forbidden-class
`Already answered` (403), not not-found — contradicting "in every failing
case it reports not-found, never a forbidden-class error". -/
theorem detail_answered_forbidden :
    getSurveyDetail stC3 7 "student" 3 = .alreadyAnswered ∧
    getSurveyDetail stC3 7 "student" 3 ≠ .notFound := by decide

/-- C3 amended: for a non-admin caller the detail fetch succeeds exactly
when the survey is active, matches the caller's audience bucket and has not
been answered by the caller; inactive, audience-mismatched or absent
surveys report not-found, but an already-answered survey reports the
forbidden-class `Already answered` instead of not-found. -/
theorem getSurveyDetail_spec (st : Store) (uid : Nat) (role : String) (sid : Nat)
    (hnd : (st.surveys.map (fun s => s.id)).Nodup) :
    (∀ sv, getSurveyDetail st uid role sid = .ok sv ↔
        sv ∈ st.surveys ∧ sv.id = sid ∧ jsToLower sv.status = "active" ∧
          (sv.audience = "all" ∨ sv.audience ∈ roleTargets (jsToLower role)) ∧
          ¬ ∃ r ∈ st.responses, r.survey = sid ∧
              (r.user = some uid ∨ r.userId = some uid)) ∧
    (getSurveyDetail st uid role sid = .alreadyAnswered ↔
        (∃ sv ∈ st.surveys, sv.id = sid ∧ jsToLower sv.status = "active" ∧
          (sv.audience = "all" ∨ sv.audience ∈ roleTargets (jsToLower role))) ∧
        ∃ r ∈ st.responses, r.survey = sid ∧
          (r.user = some uid ∨ r.userId = some uid)) ∧
    (getSurveyDetail st uid role sid = .notFound ↔
        ¬ ∃ sv ∈ st.surveys, sv.id = sid ∧ jsToLower sv.status = "active" ∧
          (sv.audience = "all" ∨ sv.audience ∈ roleTargets (jsToLower role))) := by
  have hPiff : ∀ s : StoredSurvey,
      ((decide (s.id = sid) && isActive s &&
        audienceMatches (jsToLower role) s.audience) = true) ↔
        (s.id = sid ∧ jsToLower s.status = "active" ∧
          (s.audience = "all" ∨ s.audience ∈ roleTargets (jsToLower role))) := by
    intro s
    simp [isActive, audienceMatches, and_assoc]
  cases hf : st.surveys.find? (fun s =>
      decide (s.id = sid) && isActive s && audienceMatches (jsToLower role) s.audience) with
  | none =>
    have hnone := List.find?_eq_none.mp hf
    refine ⟨fun sv => ?_, ?_, ?_⟩
    · simp only [getSurveyDetail, hf]
      constructor
      · intro h; cases h
      · rintro ⟨hmem, hid, hact, haud, -⟩
        exact absurd ((hPiff sv).mpr ⟨hid, hact, haud⟩) (hnone sv hmem)
    · simp only [getSurveyDetail, hf]
      constructor
      · intro h; cases h
      · rintro ⟨⟨sv, hmem, hprops⟩, -⟩
        exact absurd ((hPiff sv).mpr hprops) (hnone sv hmem)
    · simp only [getSurveyDetail, hf, true_iff]
      rintro ⟨sv, hmem, hprops⟩
      exact absurd ((hPiff sv).mpr hprops) (hnone sv hmem)
  | some sv =>
    have hmem := List.mem_of_find?_eq_some hf
    have hp : (decide (sv.id = sid) && isActive sv &&
        audienceMatches (jsToLower role) sv.audience) = true := by
      have hq := List.find?_some hf
      simpa using hq
    obtain ⟨hid, hact, haud⟩ := (hPiff sv).mp hp
    cases hans : st.responses.any (fun resp =>
        decide (resp.survey = sv.id) && matchesParticipant uid resp) with
    | true =>
      have hex : ∃ r ∈ st.responses, r.survey = sid ∧
          (r.user = some uid ∨ r.userId = some uid) := by
        obtain ⟨r, hr, hpr⟩ := List.any_eq_true.mp hans
        rw [Bool.and_eq_true, decide_eq_true_eq] at hpr
        obtain ⟨hs, hm⟩ := hpr
        rw [matchesParticipant, decide_eq_true_eq] at hm
        exact ⟨r, hr, hid ▸ hs, hm⟩
      refine ⟨fun sv' => ?_, ?_, ?_⟩
      · simp only [getSurveyDetail, hf, hans, if_true]
        constructor
        · intro h; cases h
        · rintro ⟨-, -, -, -, hno⟩; exact absurd hex hno
      · simp only [getSurveyDetail, hf, hans, if_true, true_iff]
        exact ⟨⟨sv, hmem, hid, hact, haud⟩, hex⟩
      · simp only [getSurveyDetail, hf, hans, if_true]
        constructor
        · intro h; cases h
        · intro hno; exact absurd ⟨sv, hmem, hid, hact, haud⟩ hno
    | false =>
      have hno : ¬ ∃ r ∈ st.responses, r.survey = sid ∧
          (r.user = some uid ∨ r.userId = some uid) := by
        rintro ⟨r, hr, hs, hm⟩
        have := List.any_eq_false.mp hans r hr
        rw [Bool.and_eq_true, decide_eq_true_eq, matchesParticipant,
          decide_eq_true_eq] at this
        exact this ⟨hid ▸ hs, hm⟩
      refine ⟨fun sv' => ?_, ?_, ?_⟩
      · simp only [getSurveyDetail, hf, hans, Bool.false_eq_true, if_false]
        constructor
        · intro h
          cases h
          exact ⟨hmem, hid, hact, haud, hno⟩
        · rintro ⟨hmem', hid', hact', haud', -⟩
          have : sv' = sv :=
            List.inj_on_of_nodup_map hnd hmem' hmem (by simpa using hid'.trans hid.symm)
          rw [this]
      · simp only [getSurveyDetail, hf, hans, Bool.false_eq_true, if_false]
        constructor
        · intro h; cases h
        · rintro ⟨-, hex⟩; exact absurd hex hno
      · simp only [getSurveyDetail, hf, hans, Bool.false_eq_true, if_false]
        constructor
        · intro h; cases h
        · intro hnone; exact absurd ⟨sv, hmem, hid, hact, haud⟩ hnone

/-- C3 witness: the amended characterization applied to the store in which
participant 7 has not yet answered the active survey 3: the fetch succeeds. -/
theorem getSurveyDetail_spec_witness :
    getSurveyDetail stC3b 7 "student" 3 = .ok svC3 :=
  ((getSurveyDetail_spec stC3b 7 "student" 3 (by decide)).1 svC3).mpr (by decide)

/-- C5: the required-question check fails exactly when some required
question's looked-up answer is empty (absent, empty list, or trimming to the
empty text — so the number `0` is non-empty and a whitespace-only string is
empty), it reports the first such required question in question-bank order
(fail-fast), and the submit handler's `ValidationError` names that
question's text. -/
theorem requiredCheck_spec (qs : List StoredQuestion) (ans : List AnswerEntry) :
    (firstMissingRequired qs ans = none ↔
      ∀ q ∈ qs, q.required = true → emptyForB ans q.id = false) ∧
    (∀ q, firstMissingRequired qs ans = some q →
      q.required = true ∧ emptyForB ans q.id = true ∧
      ∃ i : Nat, qs[i]? = some q ∧
        ∀ j : Nat, j < i → ∀ q' : StoredQuestion, qs[j]? = some q' →
          ¬(q'.required = true ∧ emptyForB ans q'.id = true)) ∧
    Value.isEmptyAnswer (.vnum 0) = false ∧
    Value.isEmptyAnswer (.vlist []) = true ∧
    Value.isEmptyAnswer (.vstr "   ") = true ∧
    Value.isEmptyAnswer .vnull = true ∧
    (∀ qid, emptyForB [] qid = true) ∧
    (∀ st sid uid raw t, (submitResponse st sid uid raw).1 = .validationError t →
      ∃ sv q, st.surveys.find? (fun s => decide (s.id = sid)) = some sv ∧
        firstMissingRequired sv.questions (normalizeAnswers sv.questions raw) = some q ∧
        t = q.text) := by
  refine ⟨?_, ?_, by decide, by decide, by decide, by decide, fun qid => rfl, ?_⟩
  · induction qs with
    | nil => simp [firstMissingRequired]
    | cons q0 rest ih =>
      cases hc : q0.required && emptyForB ans q0.id with
      | true =>
        simp only [firstMissingRequired, hc, if_true]
        constructor
        · intro h; cases h
        · intro hall
          rw [Bool.and_eq_true] at hc
          obtain ⟨hreq, hemp⟩ := hc
          have := hall q0 (List.mem_cons_self q0 rest) hreq
          rw [hemp] at this
          cases this
      | false =>
        simp only [firstMissingRequired, hc, Bool.false_eq_true, if_false]
        rw [ih]
        constructor
        · intro hall q' hmem hreq
          rcases List.mem_cons.mp hmem with rfl | hmem'
          · cases hq : emptyForB ans q'.id with
            | false => rfl
            | true => rw [hreq, hq] at hc; cases hc
          · exact hall q' hmem' hreq
        · intro hall q' hmem hreq
          exact hall q' (List.mem_cons_of_mem _ hmem) hreq
  · induction qs with
    | nil => intro q h; cases h
    | cons q0 rest ih =>
      intro q h
      cases hc : q0.required && emptyForB ans q0.id with
      | true =>
        simp only [firstMissingRequired, hc, if_true, Option.some.injEq] at h
        subst h
        rw [Bool.and_eq_true] at hc
        obtain ⟨hreq, hemp⟩ := hc
        exact ⟨hreq, hemp, 0, by simp, fun j hj => absurd hj (Nat.not_lt_zero j)⟩
      | false =>
        simp only [firstMissingRequired, hc, Bool.false_eq_true, if_false] at h
        obtain ⟨hreq, hemp, i, hi, hleast⟩ := ih q h
        refine ⟨hreq, hemp, i + 1, by simpa using hi, ?_⟩
        intro j hj q' hq' hbad
        cases j with
        | zero =>
          obtain rfl : q0 = q' := by simpa using hq'
          obtain ⟨hr, he⟩ := hbad
          rw [hr, he] at hc
          cases hc
        | succ k =>
          exact hleast k (Nat.lt_of_succ_lt_succ hj) q' (by simpa using hq') hbad
  · intro st sid uid raw t h
    cases hf : st.surveys.find? (fun s => decide (s.id = sid)) with
    | none => simp only [submitResponse, hf] at h; simp at h
    | some sv =>
      cases hr : firstMissingRequired sv.questions (normalizeAnswers sv.questions raw) with
      | some q =>
        simp only [submitResponse, hf, hr] at h
        refine ⟨sv, q, rfl, hr, ?_⟩
        have h2 := h.symm
        rwa [SubmitResult.validationError.injEq] at h2
      | none => simp only [submitResponse, hf, hr] at h; simp at h

/-- C5 witness: the characterization applied to the concrete question bank
`qsC5` and the answer list giving the required question the value `0`
(falsy but non-empty): validation passes. -/
theorem requiredCheck_spec_witness :
    firstMissingRequired qsC5 ansC5 = none :=
  (requiredCheck_spec qsC5 ansC5).1.mpr (by decide)

/-- C8 counterexample: the synonym audience `Alumnus` is stored as
`alumnus`, not folded to `alumni`: the stored audience is outside
`{all, students, alumni}`, contradicting the claim. -/
theorem createSurvey_stores_synonym :
    createSurvey bC8 = some dC8 ∧
    dC8.audience ∉ (["all", "students", "alumni"] : List String) := by decide

/-- C8 amended: on create/update the stored audience is lowercased,
trimmed and validated against the schema enum
`{all, students, student, alumni, alumnus, alumnae, alumna}`; accepted
synonyms such as `alumnus` are stored as-is rather than folded to
`alumni` (matching happens at query time instead). -/
theorem createSurvey_audience_enum (body : SurveyInput) (d : SurveyDoc)
    (h : createSurvey body = some d) :
    d.audience ∈ audienceEnum ∧
    (body.audience = some "Alumnus" → d.audience = "alumnus") := by
  simp only [createSurvey] at h
  split at h
  case isTrue hv =>
    injection h with hd
    subst hd
    simp only [validateSurveyDoc, decide_eq_true_eq] at hv
    refine ⟨hv.2.1, ?_⟩
    intro ha
    simp only [modelNormalize, normalizeSurveyPayload, jsNorm, ha]
    decide
  case isFalse => cases h

/-- C8 witness: the amended theorem at the concrete `Alumnus` payload. -/
theorem createSurvey_audience_enum_witness :
    dC8.audience ∈ audienceEnum ∧ dC8.audience = "alumnus" :=
  ⟨(createSurvey_audience_enum bC8 dC8 (by decide)).1,
   (createSurvey_audience_enum bC8 dC8 (by decide)).2 rfl⟩

/-- C9 counterexample: two raw entries resolve to question 20, the first
non-empty and the last empty. Under the claim (last value kept in a
mapping and used for the required check) validation would fail and only
one pair would remain; the code instead succeeds (the `find`-first value
governs the required check) and stores both entries. -/
theorem submit_duplicate_answers_kept :
    Value.isEmptyAnswer (.vstr "") = true ∧
    submitResponse stC9 9 7 rawC9 = (.created (mkSubmitDoc svC9 7 rawC9), stC9after) ∧
    (mkSubmitDoc svC9 7 rawC9).answers = [⟨20, .vstr "x"⟩, ⟨20, .vstr ""⟩] := by decide

/-- C9 amended: answer normalization builds a list, not a mapping:
duplicate entries for the same questionId are all kept, in order, and
stored on the created response; the required-completeness check consults
the *first* entry with the matching questionId, not the last. -/
theorem answers_keep_duplicates_first_wins (qs : List StoredQuestion) (qid : Nat)
    (v w : Value) (tail : List AnswerEntry) :
    normalizeAnswers qs [.keyed qid v, .keyed qid w] = [⟨qid, v⟩, ⟨qid, w⟩] ∧
    findAnswer (⟨qid, v⟩ :: tail) qid = some ⟨qid, v⟩ ∧
    (∀ st sid uid raw d st', submitResponse st sid uid raw = (.created d, st') →
      ∃ sv, st.surveys.find? (fun s => decide (s.id = sid)) = some sv ∧
        d.answers = normalizeAnswers sv.questions raw) := by
  refine ⟨rfl, ?_, ?_⟩
  · simp [findAnswer]
  · intro st sid uid raw d st' h
    obtain ⟨sv, hf, -, -, hd, -⟩ := submitResponse_created_inv h
    exact ⟨sv, hf, by rw [hd]; rfl⟩

/-- C9 witness: the amended theorem at the duplicate payload for question
20: both entries survive normalization and the first one is the one looked
up. -/
theorem answers_keep_duplicates_first_wins_witness :
    normalizeAnswers [qC9] [.keyed 20 (.vstr "x"), .keyed 20 (.vstr "")] =
      [⟨20, .vstr "x"⟩, ⟨20, .vstr ""⟩] ∧
    findAnswer [⟨20, .vstr "x"⟩, ⟨20, .vstr ""⟩] 20 = some ⟨20, .vstr "x"⟩ :=
  ⟨(answers_keep_duplicates_first_wins [qC9] 20 (.vstr "x") (.vstr "") []).1,
   (answers_keep_duplicates_first_wins [qC9] 20 (.vstr "x") (.vstr "")
      [⟨20, .vstr ""⟩]).2.1⟩

/-- C10 counterexample: a question whose text is present but blank
(whitespace-only) trims to the empty string — it is *not* assigned the
`Q<n>` placeholder — and the create is rejected by validation, contradicting
"is not rejected". -/
theorem createSurvey_blank_text_rejected :
    (normalizeSurveyPayload bC10).questions.map (fun q => q.text) = [""] ∧
    createSurvey bC10 = none := by decide

/-- C10 amended: the `Q<n>` placeholder applies only to a question whose
text is *missing* (absent/null); a present but blank text trims to empty
and the survey is rejected by schema validation, so every stored question
still has non-empty text. -/
theorem createSurvey_question_text_policy (body : SurveyInput) (d : SurveyDoc)
    (h : createSurvey body = some d) :
    (∀ q ∈ d.questions, q.text ≠ "") ∧
    (∀ qi : QuestionInput, qi.text = none →
      (normalizeQuestion 0 qi).text = "Q1" ∧ (normalizeQuestion 1 qi).text = "Q2") := by
  constructor
  · simp only [createSurvey] at h
    split at h
    case isTrue hv =>
      injection h with hd
      subst hd
      simp only [validateSurveyDoc, decide_eq_true_eq] at hv
      intro q hq
      exact (hv.2.2.2 q hq).1
    case isFalse => cases h
  · intro qi hqi
    constructor
    · simp only [normalizeQuestion, jsNorm, hqi, Option.getD]
      decide
    · simp only [normalizeQuestion, jsNorm, hqi, Option.getD]
      decide

/-- C10 witness: the amended theorem at the payload whose only question has
missing text: it gets the placeholder `Q1`. -/
theorem createSurvey_question_text_policy_witness :
    (normalizeQuestion 0 qiMissing).text = "Q1" :=
  ((createSurvey_question_text_policy bC10b dC10b (by decide)).2 qiMissing rfl).1

end Aerojob
